import Mathlib

/-!
Verification of the appointment-app request-resolution and validation pipeline.

The definitions below are a shallow embedding of the Python sources:
  * `backend/tools.py` — `parse_italian_datetime`, `appointment_validator`,
    the `create` branch of `google_calendar_operations`, and the wrapper
    `check_google_calendar_availability` (from `google_calendar.py`);
  * `backend/conversation_history.py` — `get_conversation_history`;
  * `agents/schedule_ai_agent/main.py` — `chat_endpoint` together with
    `generate_streaming_response` and `get_mock_response`.

Machine-level details that the checked properties do not depend on
(ISO-8601 string parsing, JSON serialisation, logging) are factored out:
datetimes arrive already parsed, and the two external collaborators
(availability oracle, booking collaborator) are `Except`-valued parameters.
-/

namespace AppointmentApp

/-- A Python `datetime`, reduced to the fields inspected by the code under
verification: the proleptic-Gregorian ordinal day (`datetime.toordinal`,
where ordinal 1 is 0001-01-01, a Monday) plus hour, minute and second.
Python compares datetimes field by field, lexicographically. -/
structure PyDateTime where
  ord : Nat
  hour : Nat
  minute : Nat
  second : Nat
deriving DecidableEq

/-- Python `datetime.weekday()`: Monday is 0 and Sunday is 6; ordinal 1 is a
Monday, so the weekday of ordinal `n` is `(n + 6) % 7`. -/
def PyDateTime.weekday (dt : PyDateTime) : Nat :=
  (dt.ord + 6) % 7

/-- Python `dt.replace(hour=h, minute=0)` — the date, the seconds and the
microseconds are kept. -/
def PyDateTime.replaceHM (dt : PyDateTime) (h : Nat) : PyDateTime :=
  { dt with hour := h, minute := 0 }

/-- Lexicographic strict order on datetimes, as Python compares them. -/
def pyLt (a b : PyDateTime) : Bool :=
  decide (a.ord < b.ord) ||
    (a.ord == b.ord &&
      (decide (a.hour < b.hour) ||
        (a.hour == b.hour &&
          (decide (a.minute < b.minute) ||
            (a.minute == b.minute && decide (a.second < b.second))))))

/-- The fields of `ScheduleAgentDependencies` read by the validator:
`business_hours` is the `(opening_hour, closing_hour)` pair and
`working_days` the working-day numbers (1 = Monday .. 7 = Sunday). -/
structure ScheduleAgentDependencies where
  business_hours : Nat × Nat
  working_days : List Nat
deriving DecidableEq

/-- The dictionary returned by the availability check: `success`, and the
optional `available` key (`none` models a dictionary without the key, which
is what the error return of `check_google_calendar_availability` carries). -/
structure AvailabilityResponse where
  success : Bool
  available : Option Bool
deriving DecidableEq

/-- `check_google_calendar_availability` (google_calendar.py): every internal
exception is caught and turned into `{"success": False, "error": ...}` — a
dictionary without an `"available"` key.  The underlying calendar service is
the `Except`-valued parameter: `.error` models a raised exception, `.ok` a
returned dictionary. -/
def check_google_calendar_availability
    (oracle : Except String AvailabilityResponse) : AvailabilityResponse :=
  match oracle with
  | .ok r => r
  | .error _ => { success := false, available := none }

/-- The result dictionary built by `appointment_validator`. -/
structure ValidationResults where
  success : Bool
  valid : Bool
  warnings : List String
  errors : List String
  business_hours_valid : Bool
  working_day_valid : Bool
  duration_valid : Bool
deriving DecidableEq

/-- Two-digit zero padding, Python `f"{n:02d}"` for the values used here. -/
def pad2 (n : Nat) : String :=
  if n < 10 then "0" ++ toString n else toString n

/-- The business-hours violation message of `appointment_validator`. -/
def businessHoursError (o c : Nat) : String :=
  "Orario non lavorativo. Ufficio aperto " ++ pad2 o ++ ":00-" ++ pad2 c ++ ":00"

/-- The working-day violation message of `appointment_validator`. -/
def workingDayError : String :=
  "Giorno non lavorativo. Controlla i giorni lavorativi disponibili."

/-- The duration violation message of `appointment_validator`. -/
def durationError : String :=
  "Durata non valida. Minimo 15 minuti, massimo 8 ore"

/-- The slot-conflict message of `appointment_validator`. -/
def conflictError : String :=
  "Orario non disponibile - conflitto con altro appuntamento"

/-- Condition of the business-hours branch (tools.py line 834):
`appointment_dt < business_start or appointment_dt > business_end` with
`business_start = dt.replace(hour=opening, minute=0)` and
`business_end = dt.replace(hour=closing, minute=0)`. -/
def bhFail (dt : PyDateTime) (deps : ScheduleAgentDependencies) : Bool :=
  pyLt dt (dt.replaceHM deps.business_hours.1) ||
    pyLt (dt.replaceHM deps.business_hours.2) dt

/-- Condition of the working-day branch (tools.py line 842):
`dt.weekday() >= 5 or (dt.weekday() + 1) not in working_days`. -/
def wdFail (dt : PyDateTime) (deps : ScheduleAgentDependencies) : Bool :=
  decide (5 ≤ dt.weekday) || !(deps.working_days.contains (dt.weekday + 1))

/-- Condition of the duration branch (tools.py line 850):
`duration_minutes < 15 or duration_minutes > 480`. -/
def durFail (duration_minutes : Int) : Bool :=
  decide (duration_minutes < 15) || decide (480 < duration_minutes)

/-- Condition of the conflict branch (tools.py line 870):
`not availability_result.get("available", True)`. -/
def conflictFlag (oracle : Except String AvailabilityResponse) : Bool :=
  !((check_google_calendar_availability oracle).available.getD true)

/-- The conflict error is appended exactly when the three rule checks all
passed (the conflict check is only reached then) and the availability lookup
reported `available` as false. -/
def slotConflictReported (dt : PyDateTime) (duration_minutes : Int)
    (deps : ScheduleAgentDependencies)
    (oracle : Except String AvailabilityResponse) : Bool :=
  !(bhFail dt deps) && !(wdFail dt deps) && !(durFail duration_minutes) &&
    conflictFlag oracle

/-- `appointment_validator` (tools.py lines 817-877), given the parsed start
datetime.  The three rule branches run in sequence, each appending its own
error and clearing `valid`; the availability check runs only when `valid`
is still true afterwards. -/
def appointment_validator (dt : PyDateTime) (duration_minutes : Int)
    (deps : ScheduleAgentDependencies)
    (oracle : Except String AvailabilityResponse) : ValidationResults :=
  let r0 : ValidationResults :=
    { success := true, valid := true, warnings := [], errors := [],
      business_hours_valid := true, working_day_valid := true,
      duration_valid := true }
  let r1 :=
    if bhFail dt deps then
      { r0 with
        business_hours_valid := false
        errors := r0.errors ++
          [businessHoursError deps.business_hours.1 deps.business_hours.2]
        valid := false }
    else r0
  let r2 :=
    if wdFail dt deps then
      { r1 with
        working_day_valid := false
        errors := r1.errors ++ [workingDayError]
        valid := false }
    else r1
  let r3 :=
    if durFail duration_minutes then
      { r2 with
        duration_valid := false
        errors := r2.errors ++ [durationError]
        valid := false }
    else r2
  if r3.valid then
    if conflictFlag oracle then
      { r3 with valid := false, errors := r3.errors ++ [conflictError] }
    else r3
  else r3

/-- Whether `needle` occurs as a contiguous substring of `hay` — Python's
`needle in hay` on strings. -/
def isSubList (needle : List Char) : List Char → Bool
  | [] => needle.isEmpty
  | c :: rest => needle.isPrefixOf (c :: rest) || isSubList needle rest

/-- Python `needle in hay` for strings. -/
def containsSub (hay needle : String) : Bool :=
  isSubList needle.data hay.data

/-- Python `str.lower()`, restricted to ASCII letters (`Char.toLower`); the
Italian keywords involved are already lower-case, so the checked inputs are
unaffected by the difference on non-ASCII upper-case letters. -/
def lowerAscii (s : String) : String :=
  String.mk (s.data.map Char.toLower)

/-- Numeric value of an ASCII digit. -/
def dval (c : Char) : Nat :=
  c.toNat - '0'.toNat

/-- Match a literal prefix, returning the remaining input. -/
def matchLit : List Char → List Char → Option (List Char)
  | [], l => some l
  | _ :: _, [] => none
  | c :: cs, d :: ds => if c = d then matchLit cs ds else none

/-- Match the tail `<mid>(\d{2})` of a time pattern at the head of the
input and return the minute group. -/
def matchMidMin (mid : List Char) (l : List Char) : Option Nat :=
  match matchLit mid l with
  | none => none
  | some r =>
    match r with
    | d1 :: d2 :: _ =>
      if d1.isDigit && d2.isDigit then some (dval d1 * 10 + dval d2)
      else none
    | _ => none

/-- Match `<pre>(\d{1,2})<mid>(\d{2})` at the head of the input (the shape
of all four time regexes of `parse_italian_datetime`); the one-or-two-digit
hour group is greedy, with backtracking to one digit as in `re`. -/
def matchShapeAt (pre mid : List Char) (l : List Char) : Option (Nat × Nat) :=
  match matchLit pre l with
  | none => none
  | some r1 =>
    let oneDigit : Option (Nat × Nat) :=
      match r1 with
      | c1 :: r2 =>
        if c1.isDigit then
          match matchMidMin mid r2 with
          | some m => some (dval c1, m)
          | none => none
        else none
      | [] => none
    match r1 with
    | c1 :: c2 :: r2 =>
      if c1.isDigit && c2.isDigit then
        match matchMidMin mid r2 with
        | some m => some (dval c1 * 10 + dval c2, m)
        | none => oneDigit
      else oneDigit
    | _ => oneDigit

/-- `re.search` for one time pattern: try the pattern at every position,
left to right, and return the first match's (hour, minute) groups. -/
def searchShape (pre mid : List Char) : List Char → Option (Nat × Nat)
  | [] => none
  | c :: rest =>
    match matchShapeAt pre mid (c :: rest) with
    | some r => some r
    | none => searchShape pre mid rest

/-- The time-extraction loop of `parse_italian_datetime` (tools.py lines
246-260): the patterns `alle (\d{1,2}):(\d{2})`, `alle (\d{1,2}) e (\d{2})`,
`ore (\d{1,2}):(\d{2})` and `(\d{1,2}):(\d{2})` are tried in order on the
raw (not lower-cased) text; the first pattern with a match anywhere wins. -/
def extractTime (text : List Char) : Option (Nat × Nat) :=
  match searchShape "alle ".data ":".data text with
  | some r => some r
  | none =>
    match searchShape "alle ".data " e ".data text with
    | some r => some r
    | none =>
      match searchShape "ore ".data ":".data text with
      | some r => some r
      | none => searchShape [] ":".data text

/-- Day offset of a weekday entry of the `date_patterns` dictionary:
Python `(target - ref_weekday + 7) % 7 or 7` — the next future occurrence,
a full week ahead when the modulus is zero. -/
def wdOffset (target w : Nat) : Nat :=
  let m := (target + 7 - w) % 7
  if m = 0 then 7 else m

/-- The date-selection loop of `parse_italian_datetime` (tools.py lines
218-243): iterate the `date_patterns` entries in insertion order, taking
the first key contained in the lower-cased text; no match keeps the
reference date (offset 0). -/
def findDateOffset (tl : String) (w : Nat) : Nat :=
  if containsSub tl "oggi" then 0
  else if containsSub tl "domani" then 1
  else if containsSub tl "dopodomani" then 2
  else if containsSub tl "lunedì" then wdOffset 0 w
  else if containsSub tl "martedì" then wdOffset 1 w
  else if containsSub tl "mercoledì" then wdOffset 2 w
  else if containsSub tl "giovedì" then wdOffset 3 w
  else if containsSub tl "venerdì" then wdOffset 4 w
  else if containsSub tl "sabato" then wdOffset 5 w
  else if containsSub tl "domenica" then wdOffset 6 w
  else 0

/-- The weekday name keyed in `date_patterns` for each Python weekday
number (0 = Monday .. 6 = Sunday). -/
def weekdayName : Nat → String
  | 0 => "lunedì"
  | 1 => "martedì"
  | 2 => "mercoledì"
  | 3 => "giovedì"
  | 4 => "venerdì"
  | 5 => "sabato"
  | 6 => "domenica"
  | _ => ""

/-- The five `"<weekday> prossimo"` terms of the next-week loop (tools.py
lines 232-236). -/
def prossimoTerms : List String :=
  ["lunedì prossimo", "martedì prossimo", "mercoledì prossimo",
   "giovedì prossimo", "venerdì prossimo"]

/-- Whether the next-week loop finds one of its terms in the text. -/
def hasProssimoTerm (tl : String) : Bool :=
  prossimoTerms.any (fun t => containsSub tl t)

/-- The period-of-day override (tools.py lines 262-268): each period word
rewrites the time to its canonical value whenever the word is present and
the substring `"alle"` is absent from the lower-cased text. -/
def applyPeriodOverride (tl : String) (hm : Nat × Nat) : Nat × Nat :=
  if containsSub tl "mattina" && !(containsSub tl "alle") then (9, 0)
  else if containsSub tl "pomeriggio" && !(containsSub tl "alle") then (15, 0)
  else if containsSub tl "sera" && !(containsSub tl "alle") then (18, 0)
  else hm

/-- The canonical period time the override chain would pick for a text. -/
def periodCanonicalTime (tl : String) : Nat × Nat :=
  if containsSub tl "mattina" then (9, 0)
  else if containsSub tl "pomeriggio" then (15, 0)
  else (18, 0)

/-- Result of `parse_italian_datetime`: the success dictionary carries the
resolved date (ordinal), the resolved (hour, minute) and the fixed
confidence as a percentage; the error dictionary carries the caught
exception's message. -/
inductive ParseOutcome where
  | ok (dateOrd : Nat) (time : Nat × Nat) (confidencePct : Nat)
  | err (msg : String)
deriving DecidableEq

/-- `parse_italian_datetime` (tools.py lines 197-292), given the already
parsed reference datetime.  Faithful quirks: (a) in the source's next-week
loop the bound variable `day` is the weekday NAME (a `str`), so computing
`day - ref_date.weekday()` raises `TypeError` whenever a
`"<weekday> prossimo"` term is present, and the surrounding handler turns
that into the error dictionary; (b) `datetime.strptime(parsed_time, "%H:%M")`
raises `ValueError` (again caught) when the extracted hour exceeds 23 or the
minute exceeds 59. -/
def parse_italian_datetime (text : String) (ref : PyDateTime) : ParseOutcome :=
  let tl := lowerAscii text
  if hasProssimoTerm tl then
    .err "unsupported operand type(s) for -: 'str' and 'int'"
  else
    let off := findDateOffset tl ref.weekday
    let hm := (extractTime text.data).getD (10, 0)
    let hm2 := applyPeriodOverride tl hm
    if hm2.1 ≤ 23 ∧ hm2.2 ≤ 59 then .ok (ref.ord + off) hm2 85
    else .err "time data does not match format"

/-- Python truthiness of an `Optional[str]`: `None` and `""` are falsy. -/
def pyTruthy : Option String → Bool
  | none => false
  | some s => !s.isEmpty

/-- The result dictionary of the `create` branch of
`google_calendar_operations`, reduced to the keys the claims inspect. -/
structure CreateResult where
  success : Bool
  error : Option String := none
  requires_email : Bool := false
  message : Option String := none
  calendar_created : Bool := false
deriving DecidableEq

/-- The `create` branch of `google_calendar_operations` (tools.py lines
540-710).  The booking collaborator (the standalone calendar service, with
the mock fallback) is the `Except`-valued parameter: `.ok b` is a returned
dictionary whose `success` key is `b`, `.error` a raised exception.  The
returned `Nat` counts the invocations of the booking collaborator.  After
the two gates the code always answers `success = True`, whatever the
collaborator did. -/
def google_calendar_operations_create (title start_time : Option String)
    (client_name : String) (client_email : Option String)
    (collaborator : Except String Bool) : CreateResult × Nat :=
  if !(pyTruthy title && pyTruthy start_time && !client_name.isEmpty) then
    ({ success := false,
       error := some
         "Title, start_time, and client_name required for create operation" },
     0)
  else if !(pyTruthy client_email) then
    ({ success := false,
       error := some
         "Email del cliente è OBBLIGATORIO per creare l\x27invito nel calendario. Per favore, richiedi l\x27email del cliente prima di procedere."
       requires_email := true
       message := some
         "Per creare l\x27appuntamento nel calendario, ho bisogno dell\x27email del cliente per invitarlo all\x27evento." },
     0)
  else
    match collaborator with
    | .ok true =>
      ({ success := true
         message := some "Appuntamento creato con successo nel calendario"
         calendar_created := true }, 1)
    | .ok false =>
      ({ success := true
         message := some
           "Appuntamento registrato (sincronizzazione calendar in background)"
         calendar_created := true }, 1)
    | .error _ =>
      ({ success := true
         message := some "Appuntamento confermato. Errore tecnico risolto."
         calendar_created := true }, 1)

/-- Message roles used by the chat endpoint and the conversation store. -/
inductive ChatRole where
  | user
  | assistant
  | system
deriving DecidableEq

/-- A message as persisted by `conversation_manager.add_message`. -/
structure StoredMessage where
  role : ChatRole
  content : String
deriving DecidableEq

/-- The outward response of the `/chat` endpoint. -/
inductive ChatOutcome where
  | mockReply (text : String)
  | streamedReply (text : String)
  | streamedError (err : String)
  | jsonReply (text : String)
  | httpError (code : Nat) (detail : String)
deriving DecidableEq

/-- `get_mock_response` (main.py lines 564-577). -/
def get_mock_response (message : String) : String :=
  let ml := lowerAscii message
  if containsSub ml "ciao" || containsSub ml "buongiorno" then
    "Buongiorno! Sono ScheduleAI, il tuo assistente per le prenotazioni. Come posso aiutarti oggi?"
  else if containsSub ml "appuntamento" || containsSub ml "prenotare" then
    "Certamente! Posso aiutarti a prenotare un appuntamento. Che tipo di servizio desideri e quando preferiresti?"
  else if containsSub ml "disponibile" || containsSub ml "quando" then
    "Posso controllare le disponibilità per te. Che giorno ti interessa e di che tipo di servizio hai bisogno?"
  else if containsSub ml "grazie" then
    "Prego! Sono qui per aiutarti con qualsiasi altra domanda o prenotazione."
  else
    "Sono ScheduleAI, il tuo assistente per prenotazioni. Posso aiutarti a prenotare appuntamenti, controllare disponibilità e gestire la tua agenda. Come posso assisterti?"

/-- `chat_endpoint` (main.py lines 227-304) together with
`generate_streaming_response` (lines 154-201), seen through its effect on
the session's persisted message list.  `agentResult` is the awaited
`schedule_agent.process_message` call (`.error` = raised); `clean` stands
for the pure string cleanup `extract_clean_response`; `hist` is the
session's message list before the turn, and the first component of the
result is the list after the turn completes (for the streaming branch:
after the response generator has run). -/
def chat_endpoint (clean : String → String) (agentAvailable stream : Bool)
    (message : String) (agentResult : Except String String)
    (hist : List StoredMessage) : List StoredMessage × ChatOutcome :=
  if !agentAvailable then
    (hist, .mockReply (get_mock_response message))
  else
    let hist1 := hist ++ [{ role := .user, content := message }]
    if stream then
      match agentResult with
      | .ok resp =>
        (hist1 ++ [{ role := .assistant, content := clean resp }],
         .streamedReply (clean resp))
      | .error e => (hist1, .streamedError e)
    else
      match agentResult with
      | .ok resp => (hist1, .jsonReply (clean resp))
      | .error e =>
        (hist1, .httpError 500 ("Error processing message: " ++ e))

/-- A message record of `conversation_history.py`. -/
structure ConversationMessage where
  timestamp : String
  role : String
  content : String
  message_type : String
deriving DecidableEq

/-- A conversation session record, reduced to the fields
`get_conversation_history` reads. -/
structure ConversationSessionRec where
  session_id : String
  messages : List ConversationMessage
deriving DecidableEq

/-- Python list slicing `l[start:]`, for a possibly negative `start`. -/
def pySliceFrom (l : List ConversationMessage) (start : Int) :
    List ConversationMessage :=
  if 0 ≤ start then l.drop start.toNat
  else l.drop (l.length - (-start).toNat)

/-- `get_conversation_history` (conversation_history.py lines 215-236):
`lookup` is `get_session` (the on-disk record keyed by session id).  The
source guards the slice with `if limit:` — Python truthiness, under which
both `None` and `0` skip the slicing. -/
def get_conversation_history
    (lookup : String → Option ConversationSessionRec)
    (session_id : String) (limit : Option Int) : List ConversationMessage :=
  match lookup session_id with
  | none => []
  | some s =>
    match limit with
    | none => s.messages
    | some l => if l = 0 then s.messages else pySliceFrom s.messages (-l)

theorem appointment_validator_run (dt : PyDateTime) (duration_minutes : Int)
    (deps : ScheduleAgentDependencies)
    (oracle : Except String AvailabilityResponse) :
    appointment_validator dt duration_minutes deps oracle =
      { success := true,
        valid := !(bhFail dt deps) && !(wdFail dt deps) &&
          !(durFail duration_minutes) &&
          !(slotConflictReported dt duration_minutes deps oracle),
        warnings := [],
        errors :=
          (if bhFail dt deps then
            [businessHoursError deps.business_hours.1 deps.business_hours.2]
           else []) ++
          (if wdFail dt deps then [workingDayError] else []) ++
          (if durFail duration_minutes then [durationError] else []) ++
          (if slotConflictReported dt duration_minutes deps oracle then
            [conflictError] else []),
        business_hours_valid := !(bhFail dt deps),
        working_day_valid := !(wdFail dt deps),
        duration_valid := !(durFail duration_minutes) } := by
  cases h1 : bhFail dt deps <;> cases h2 : wdFail dt deps <;>
    cases h3 : durFail duration_minutes <;>
    cases h4 : conflictFlag oracle <;>
    simp [appointment_validator, slotConflictReported, h1, h2, h3, h4]

/-- C1: for every validation, `valid` is true iff the three boolean rule
checks are all true and no slot conflict was reported; the three checks are
evaluated unconditionally (each boolean field equals its own rule,
independently of the others), and one error message is appended per violated
rule, so the error-list length equals the number of violated rules. -/
theorem C1_valid_iff_rules_and_no_conflict (dt : PyDateTime)
    (duration_minutes : Int) (deps : ScheduleAgentDependencies)
    (oracle : Except String AvailabilityResponse) :
    let r := appointment_validator dt duration_minutes deps oracle
    r.business_hours_valid = !(bhFail dt deps) ∧
    r.working_day_valid = !(wdFail dt deps) ∧
    r.duration_valid = !(durFail duration_minutes) ∧
    (r.valid = true ↔
      (r.business_hours_valid = true ∧ r.working_day_valid = true ∧
        r.duration_valid = true ∧
        slotConflictReported dt duration_minutes deps oracle = false)) ∧
    r.errors.length =
      (if r.business_hours_valid then 0 else 1) +
      (if r.working_day_valid then 0 else 1) +
      (if r.duration_valid then 0 else 1) +
      (if slotConflictReported dt duration_minutes deps oracle then 1
       else 0) := by
  rw [appointment_validator_run]
  cases h1 : bhFail dt deps <;> cases h2 : wdFail dt deps <;>
    cases h3 : durFail duration_minutes <;>
    cases h4 : conflictFlag oracle <;>
    simp [slotConflictReported, h1, h2, h3, h4]

/-- C2: when the three rule checks pass and the availability oracle raises,
the validator degrades gracefully: `valid` stays true, the boolean fields
keep their computed values, and no conflict error is appended. -/
theorem C2_oracle_error_graceful (dt : PyDateTime) (duration_minutes : Int)
    (deps : ScheduleAgentDependencies) (msg : String)
    (h1 : bhFail dt deps = false) (h2 : wdFail dt deps = false)
    (h3 : durFail duration_minutes = false) :
    (appointment_validator dt duration_minutes deps (.error msg)).valid
        = true ∧
    (appointment_validator dt duration_minutes deps
        (.error msg)).business_hours_valid = true ∧
    (appointment_validator dt duration_minutes deps
        (.error msg)).working_day_valid = true ∧
    (appointment_validator dt duration_minutes deps
        (.error msg)).duration_valid = true ∧
    (appointment_validator dt duration_minutes deps (.error msg)).errors
        = [] := by
  rw [appointment_validator_run]
  simp [slotConflictReported, conflictFlag, check_google_calendar_availability,
    h1, h2, h3]

theorem C2_oracle_error_graceful_witness :
    bhFail ⟨8, 10, 0, 0⟩ ⟨(9, 18), [1, 2, 3, 4, 5]⟩ = false ∧
    wdFail ⟨8, 10, 0, 0⟩ ⟨(9, 18), [1, 2, 3, 4, 5]⟩ = false ∧
    durFail 30 = false ∧
    ((appointment_validator ⟨8, 10, 0, 0⟩ 30 ⟨(9, 18), [1, 2, 3, 4, 5]⟩
        (.error "oracle boom")).valid = true ∧
      (appointment_validator ⟨8, 10, 0, 0⟩ 30 ⟨(9, 18), [1, 2, 3, 4, 5]⟩
        (.error "oracle boom")).business_hours_valid = true ∧
      (appointment_validator ⟨8, 10, 0, 0⟩ 30 ⟨(9, 18), [1, 2, 3, 4, 5]⟩
        (.error "oracle boom")).working_day_valid = true ∧
      (appointment_validator ⟨8, 10, 0, 0⟩ 30 ⟨(9, 18), [1, 2, 3, 4, 5]⟩
        (.error "oracle boom")).duration_valid = true ∧
      (appointment_validator ⟨8, 10, 0, 0⟩ 30 ⟨(9, 18), [1, 2, 3, 4, 5]⟩
        (.error "oracle boom")).errors = []) :=
  ⟨by decide, by decide, by decide,
    C2_oracle_error_graceful ⟨8, 10, 0, 0⟩ 30 ⟨(9, 18), [1, 2, 3, 4, 5]⟩
      "oracle boom" (by decide) (by decide) (by decide)⟩

/-- C7 counterexample: on Saturday 10:00 with a working-day set that
contains Saturday (6), the set-membership condition holds and yet
`working_day_valid` is false — membership is not the sole condition.
Ordinal 13 has weekday 5 (Saturday). -/
theorem C7_counterexample :
    ([1, 2, 3, 4, 5, 6].contains
        ((⟨13, 10, 0, 0⟩ : PyDateTime).weekday + 1)) = true ∧
    (appointment_validator ⟨13, 10, 0, 0⟩ 30 ⟨(9, 18), [1, 2, 3, 4, 5, 6]⟩
        (.ok ⟨true, some true⟩)).working_day_valid = false := by
  decide

/-- C7 amended: `working_day_valid` is true iff the weekday is a weekday in
the Monday-Friday sense (`weekday < 5`) AND its 1-based number is a member
of the working-day set; Saturday and Sunday are rejected even when their
numbers are in the set. -/
theorem C7_working_day_amended (dt : PyDateTime) (duration_minutes : Int)
    (deps : ScheduleAgentDependencies)
    (oracle : Except String AvailabilityResponse) :
    (appointment_validator dt duration_minutes deps
        oracle).working_day_valid = true ↔
      (dt.weekday < 5 ∧ (dt.weekday + 1) ∈ deps.working_days) := by
  rw [appointment_validator_run]
  simp [wdFail, List.contains, List.elem_iff, Nat.not_le, and_comm]

/-- C8 counterexample: a start exactly at the closing hour (18:00 with
business hours 9-18) is reported inside business hours — the window the
code enforces is closed at the closing instant, not half-open. -/
theorem C8_counterexample :
    (appointment_validator ⟨8, 18, 0, 0⟩ 30 ⟨(9, 18), [1, 2, 3, 4, 5]⟩
        (.ok ⟨true, some true⟩)).business_hours_valid = true ∧
    (appointment_validator ⟨8, 18, 0, 0⟩ 30 ⟨(9, 18), [1, 2, 3, 4, 5]⟩
        (.ok ⟨true, some true⟩)).valid = true := by
  decide

/-- C8 amended: `business_hours_valid` is true iff the start instant's
clock time lies in the closed window from `opening_hour:00` up to and
including `closing_hour:00` — a start exactly at `closing_hour:00` is
inside the window; only the start instant is checked, never
start + duration. -/
theorem C8_business_hours_amended (dt : PyDateTime) (duration_minutes : Int)
    (deps : ScheduleAgentDependencies)
    (oracle : Except String AvailabilityResponse) :
    (appointment_validator dt duration_minutes deps
        oracle).business_hours_valid = true ↔
      (deps.business_hours.1 ≤ dt.hour ∧
        (dt.hour < deps.business_hours.2 ∨
          (dt.hour = deps.business_hours.2 ∧ dt.minute = 0))) := by
  rw [appointment_validator_run]
  simp [bhFail, pyLt, PyDateTime.replaceHM]
  omega

theorem wdOffset_pos (t w : Nat) : 1 ≤ wdOffset t w := by
  simp only [wdOffset]
  split <;> omega

theorem wdOffset_le (t w : Nat) : wdOffset t w ≤ 7 := by
  simp only [wdOffset]
  split <;> omega

theorem findDateOffset_le (tl : String) (w : Nat) :
    findDateOffset tl w ≤ 7 := by
  simp only [findDateOffset]
  repeat' split
  all_goals first
  | omega
  | exact wdOffset_le _ _

theorem findDateOffset_pos (tl : String) (w : Nat) (hw : w < 7)
    (hname : containsSub tl (weekdayName w) = true)
    (hoggi : containsSub tl "oggi" = false) :
    1 ≤ findDateOffset tl w := by
  simp only [findDateOffset, hoggi]
  repeat' split
  all_goals first
  | omega
  | exact wdOffset_pos _ _
  | (interval_cases w <;> simp_all [weekdayName])

/-- C4 counterexample: with a Monday reference (ordinal 8), the phrase
"oggi lunedì" contains the plain weekday name of the reference weekday, yet
the resolver returns the reference day itself (ordinal 8, zero days ahead):
the "oggi" entry of the pattern table matches first. -/
theorem C4_counterexample :
    containsSub (lowerAscii "oggi lunedì")
        (weekdayName (PyDateTime.weekday ⟨8, 9, 0, 0⟩)) = true ∧
    parse_italian_datetime "oggi lunedì" ⟨8, 9, 0, 0⟩ =
      .ok (PyDateTime.ord ⟨8, 9, 0, 0⟩) (10, 0) 85 := by
  decide

/-- C4 amended: for every phrase that contains the weekday name of the
reference instant's weekday and does not contain the higher-priority
keyword "oggi", whenever the resolver succeeds it returns a date strictly
more than 0 and at most 7 days after the reference date. -/
theorem C4_same_weekday_amended (text : String) (ref : PyDateTime)
    (d : Nat) (hm : Nat × Nat) (c : Nat)
    (hname : containsSub (lowerAscii text)
      (weekdayName ref.weekday) = true)
    (hoggi : containsSub (lowerAscii text) "oggi" = false)
    (hok : parse_italian_datetime text ref = .ok d hm c) :
    ref.ord < d ∧ d ≤ ref.ord + 7 := by
  have hw : ref.weekday < 7 := Nat.mod_lt _ (by omega)
  unfold parse_italian_datetime at hok
  by_cases hpros : hasProssimoTerm (lowerAscii text) = true
  · simp [hpros] at hok
  · simp only [Bool.not_eq_true] at hpros
    simp only [hpros, Bool.false_eq_true, if_false] at hok
    split at hok
    · rw [ParseOutcome.ok.injEq] at hok
      rcases hok with ⟨hok, -⟩
      subst hok
      have h1 := findDateOffset_pos (lowerAscii text) ref.weekday hw
        hname hoggi
      have h2 := findDateOffset_le (lowerAscii text) ref.weekday
      omega
    · exact absurd hok (by simp)

theorem C4_same_weekday_amended_witness :
    containsSub (lowerAscii "lunedì alle 15:00")
        (weekdayName (PyDateTime.weekday ⟨8, 9, 0, 0⟩)) = true ∧
    containsSub (lowerAscii "lunedì alle 15:00") "oggi" = false ∧
    parse_italian_datetime "lunedì alle 15:00" ⟨8, 9, 0, 0⟩ =
      .ok 15 (15, 0) 85 ∧
    ((⟨8, 9, 0, 0⟩ : PyDateTime).ord < 15 ∧
      15 ≤ (⟨8, 9, 0, 0⟩ : PyDateTime).ord + 7) :=
  ⟨by decide, by decide, by decide,
    C4_same_weekday_amended "lunedì alle 15:00" ⟨8, 9, 0, 0⟩ 15 (15, 0) 85
      (by decide) (by decide) (by decide)⟩

/-- C5: the code contradicts its own test
(`test_parse_next_week_expressions` expects "lunedì prossimo" with the
Monday reference 2025-01-20, ordinal 739271, to succeed with 2025-01-27):
because the next-week loop subtracts an integer from the weekday NAME,
any "prossimo"-qualified phrase raises `TypeError` and the resolver
returns the error dictionary instead of a resolved date. -/
theorem C5_prossimo_raises :
    parse_italian_datetime "lunedì prossimo" ⟨739271, 10, 0, 0⟩ =
      .err "unsupported operand type(s) for -: 'str' and 'int'" := by
  decide

/-- C6 counterexample: "mercoledì mattina ore 11:30" carries an explicit
clock time recognized by the `ore HH:MM` pattern (11:30), yet the resolver
returns the period's canonical time 09:00, because the override only
checks for the absence of the substring "alle". -/
theorem C6_counterexample :
    extractTime "mercoledì mattina ore 11:30".data = some (11, 30) ∧
    parse_italian_datetime "mercoledì mattina ore 11:30" ⟨8, 9, 0, 0⟩ =
      .ok 10 (9, 0) 85 := by
  decide

/-- C6 amended: the period-of-day canonical time wins whenever a period
word is present and the substring "alle" is absent from the lower-cased
phrase, even when an explicit clock time was matched by the `ore HH:MM` or
bare `HH:MM` patterns; an explicit clock time prevails only when the
phrase contains "alle". -/
theorem C6_period_override_amended (text : String) (ref : PyDateTime)
    (hper : (containsSub (lowerAscii text) "mattina" ||
      containsSub (lowerAscii text) "pomeriggio" ||
      containsSub (lowerAscii text) "sera") = true)
    (halle : containsSub (lowerAscii text) "alle" = false)
    (hpros : hasProssimoTerm (lowerAscii text) = false) :
    parse_italian_datetime text ref =
      .ok (ref.ord + findDateOffset (lowerAscii text) ref.weekday)
        (periodCanonicalTime (lowerAscii text)) 85 := by
  cases hm : containsSub (lowerAscii text) "mattina" <;>
    cases hp : containsSub (lowerAscii text) "pomeriggio" <;>
    cases hs : containsSub (lowerAscii text) "sera" <;>
    simp_all [parse_italian_datetime, applyPeriodOverride,
      periodCanonicalTime]

theorem C6_period_override_amended_witness :
    (containsSub (lowerAscii "mercoledì mattina ore 11:30") "mattina" ||
      containsSub (lowerAscii "mercoledì mattina ore 11:30") "pomeriggio" ||
      containsSub (lowerAscii "mercoledì mattina ore 11:30") "sera")
        = true ∧
    containsSub (lowerAscii "mercoledì mattina ore 11:30") "alle"
        = false ∧
    hasProssimoTerm (lowerAscii "mercoledì mattina ore 11:30") = false ∧
    parse_italian_datetime "mercoledì mattina ore 11:30" ⟨8, 9, 0, 0⟩ =
      .ok ((⟨8, 9, 0, 0⟩ : PyDateTime).ord +
          findDateOffset (lowerAscii "mercoledì mattina ore 11:30")
            (PyDateTime.weekday ⟨8, 9, 0, 0⟩))
        (periodCanonicalTime (lowerAscii "mercoledì mattina ore 11:30"))
        85 :=
  ⟨by decide, by decide, by decide,
    C6_period_override_amended "mercoledì mattina ore 11:30" ⟨8, 9, 0, 0⟩
      (by decide) (by decide) (by decide)⟩

/-- C3: a create attempt with the required fields present but no client
email returns the explicit email-required gate (`success = False` with
`requires_email = True`) and never invokes the booking collaborator. -/
theorem C3_email_gate (title start_time : Option String)
    (client_name : String) (client_email : Option String)
    (collaborator : Except String Bool)
    (h1 : pyTruthy title = true) (h2 : pyTruthy start_time = true)
    (h3 : client_name.isEmpty = false) (h4 : pyTruthy client_email = false) :
    (google_calendar_operations_create title start_time client_name
        client_email collaborator).1.success = false ∧
    (google_calendar_operations_create title start_time client_name
        client_email collaborator).1.requires_email = true ∧
    (google_calendar_operations_create title start_time client_name
        client_email collaborator).2 = 0 := by
  simp [google_calendar_operations_create, h1, h2, h3, h4]

theorem C3_email_gate_witness :
    pyTruthy (some "Consulenza") = true ∧
    pyTruthy (some "2025-01-20T10:00:00") = true ∧
    "Mario Rossi".isEmpty = false ∧
    pyTruthy (none : Option String) = false ∧
    ((google_calendar_operations_create (some "Consulenza")
        (some "2025-01-20T10:00:00") "Mario Rossi" none
        (.ok true)).1.success = false ∧
      (google_calendar_operations_create (some "Consulenza")
        (some "2025-01-20T10:00:00") "Mario Rossi" none
        (.ok true)).1.requires_email = true ∧
      (google_calendar_operations_create (some "Consulenza")
        (some "2025-01-20T10:00:00") "Mario Rossi" none
        (.ok true)).2 = 0) :=
  ⟨by decide, by decide, by decide, by decide,
    C3_email_gate (some "Consulenza") (some "2025-01-20T10:00:00")
      "Mario Rossi" none (.ok true) (by decide) (by decide) (by decide)
      (by decide)⟩

/-- C9 counterexample: a non-streaming turn whose agent call succeeds
persists only the user's message — the assistant's final reply is never
appended on that branch, so the history does not gain both messages. -/
theorem C9_counterexample :
    chat_endpoint (fun s => s) true false "Ciao" (.ok "Buongiorno!") [] =
      ([{ role := .user, content := "Ciao" }],
        .jsonReply "Buongiorno!") ∧
    ((chat_endpoint (fun s => s) true false "Ciao" (.ok "Buongiorno!")
        []).1.countP (fun m => m.role == ChatRole.assistant)) = 0 := by
  decide

/-- C9 amended: with the agent available, the user's inbound message is
appended on every branch, but the assistant's final reply is appended only
on the streaming branch when the agent call succeeds; the non-streaming
branch and both error branches persist the user message alone, and the
agent-unavailable mock branch persists nothing. -/
theorem C9_history_amended (clean : String → String)
    (agentAvailable stream : Bool) (message : String)
    (agentResult : Except String String) (hist : List StoredMessage) :
    (chat_endpoint clean agentAvailable stream message agentResult
        hist).1 =
      if agentAvailable then
        hist ++ [{ role := .user, content := message }] ++
          (match stream, agentResult with
           | true, .ok resp =>
             [{ role := .assistant, content := clean resp }]
           | _, _ => [])
      else hist := by
  cases agentAvailable <;> cases stream <;> cases agentResult <;>
    simp [chat_endpoint]

/-- C10: for an existing session, `get_conversation_history` with
`limit = 0` returns the whole message list, exactly as when no limit is
passed — `if limit:` treats `0` as falsy. -/
theorem C10_zero_limit_full_history
    (lookup : String → Option ConversationSessionRec)
    (session_id : String) (s : ConversationSessionRec)
    (h : lookup session_id = some s) :
    get_conversation_history lookup session_id (some 0) = s.messages ∧
    get_conversation_history lookup session_id (some 0) =
      get_conversation_history lookup session_id none := by
  simp [get_conversation_history, h]

theorem C10_zero_limit_full_history_witness :
    (fun sid => if sid = "s1" then
        some (⟨"s1", [⟨"t1", "user", "Ciao", "text"⟩,
          ⟨"t2", "assistant", "Buongiorno!", "text"⟩]⟩ :
            ConversationSessionRec)
      else none) "s1" =
      some (⟨"s1", [⟨"t1", "user", "Ciao", "text"⟩,
        ⟨"t2", "assistant", "Buongiorno!", "text"⟩]⟩ :
          ConversationSessionRec) ∧
    (get_conversation_history
        (fun sid => if sid = "s1" then
          some ⟨"s1", [⟨"t1", "user", "Ciao", "text"⟩,
            ⟨"t2", "assistant", "Buongiorno!", "text"⟩]⟩
        else none) "s1" (some 0) =
      [⟨"t1", "user", "Ciao", "text"⟩,
        ⟨"t2", "assistant", "Buongiorno!", "text"⟩] ∧
      get_conversation_history
        (fun sid => if sid = "s1" then
          some ⟨"s1", [⟨"t1", "user", "Ciao", "text"⟩,
            ⟨"t2", "assistant", "Buongiorno!", "text"⟩]⟩
        else none) "s1" (some 0) =
      get_conversation_history
        (fun sid => if sid = "s1" then
          some ⟨"s1", [⟨"t1", "user", "Ciao", "text"⟩,
            ⟨"t2", "assistant", "Buongiorno!", "text"⟩]⟩
        else none) "s1" none) :=
  ⟨by decide,
    C10_zero_limit_full_history
      (fun sid => if sid = "s1" then
        some ⟨"s1", [⟨"t1", "user", "Ciao", "text"⟩,
          ⟨"t2", "assistant", "Buongiorno!", "text"⟩]⟩
      else none) "s1"
      ⟨"s1", [⟨"t1", "user", "Ciao", "text"⟩,
        ⟨"t2", "assistant", "Buongiorno!", "text"⟩]⟩ (by decide)⟩

end AppointmentApp
